import Mathlib

/-!
Shallow embedding of `src/main.py` (audio-analysis service).

The service exposes one endpoint, `POST /analyze/`, which writes the upload
to a temp file, runs `analyze_song_as_scores` on the path, and cleans up in
a `finally` block.  The external audio library (`librosa`) is modelled
abstractly: decoding the file either fails (any exception, corrupt audio)
or yields a record of the seven raw statistics the code consumes.  Scores
are modelled over `ℚ`; the clamp arithmetic of the source is linear and
exact, so rationals capture it faithfully.
-/

/-- The six-field result record (Pydantic model `AnalysisResult`,
`src/main.py` lines 9-15). -/
structure AnalysisResult where
  tempo_bpm : ℚ
  rhythmic_strength : ℚ
  timbre_brightness : ℚ
  energy_level : ℚ
  harmonic_vs_percussive : ℚ
  timbre_richness : ℚ
  deriving Repr, DecidableEq

/-- The raw statistics the extractor obtains from the audio library on a
successful decode: tempo, mean onset strength, mean spectral centroid,
mean RMS, RMS of the harmonic and of the percussive component, and mean
spectral bandwidth (`src/main.py` lines 24-36). -/
structure RawFeatures where
  tempo : ℚ
  onset_strength : ℚ
  spectral_centroid : ℚ
  rms : ℚ
  harmonic_rms : ℚ
  percussive_rms : ℚ
  spectral_bandwidth : ℚ
  deriving Repr, DecidableEq

/-- The harmonic/percussive quotient of `src/main.py` line 34:
`harmonic_strength / percussive_strength if percussive_strength > 0 else 1.0`. -/
def hp_quotient (f : RawFeatures) : ℚ :=
  if f.percussive_rms > 0 then f.harmonic_rms / f.percussive_rms else 1

/-- `analyze_song_as_scores` (`src/main.py` lines 17-49).  `path_exists`
models the `os.path.exists` check; `decoded` is `none` when the library
raises during load or any feature computation (the bare `except Exception`
collapses every error to `None`), and `some f` with the raw statistics
otherwise.  Constants: 0.2 = 1/5, 0.8 = 4/5, 0.01 = 1/100, 0.24 = 24/100. -/
def analyze_song_as_scores (path_exists : Bool) (decoded : Option RawFeatures) :
    Option AnalysisResult :=
  if !path_exists then none
  else
    match decoded with
    | none => none
    | some f =>
      let rhythm_score := min 100 (max 0 ((f.onset_strength - 1/5) / (4/5) * 100))
      let brightness_score := min 100 (max 0 ((f.spectral_centroid - 1000) / 4000 * 100))
      let energy_score := min 100 (max 0 ((f.rms - 1/100) / (24/100) * 100))
      let dominance_score :=
        min 100 (max 0 (hp_quotient f / (hp_quotient f + 1) * 200))
      let richness_score := min 100 (max 0 ((f.spectral_bandwidth - 1000) / 2000 * 100))
      some { tempo_bpm := f.tempo
             rhythmic_strength := rhythm_score
             timbre_brightness := brightness_score
             energy_level := energy_score
             harmonic_vs_percussive := dominance_score
             timbre_richness := richness_score }

/-- Python exceptions that the handler's cleanup code can raise. -/
inductive PyExc where
  | fileNotFoundError
  deriving Repr, DecidableEq

/-- `os.remove` on the temp path, over a filesystem modelled by whether the
temp file currently exists.  Removing an existing file deletes it; removing
a missing file raises `FileNotFoundError` and leaves the filesystem as is. -/
def os_remove (fs : Bool) : Option PyExc × Bool :=
  if fs then (none, false) else (some PyExc.fileNotFoundError, fs)

/-- The `finally` block of `analyze_audio` (`src/main.py` lines 70-72): two
sequential `os.remove(temp_file_path)` calls.  If the first raises, the
second never runs; if the first succeeds, the second runs on the updated
filesystem.  Returns the exception escaping the block (if any) and the
final filesystem state. -/
def cleanup_block (fs : Bool) : Option PyExc × Bool :=
  match os_remove fs with
  | (some e, fs1) => (some e, fs1)
  | (none, fs1) => os_remove fs1

/-- Outcome of the handler body as seen by the framework: a normal return,
a raised `HTTPException` (status code and detail), or an uncaught Python
exception. -/
inductive Outcome where
  | ok (result : AnalysisResult)
  | httpError (status_code : Nat) (detail : String)
  | pyError (e : PyExc)
  deriving Repr, DecidableEq

/-- Record of one run of the `analyze_audio` handler: the outcome handed to
the framework, whether a temp file was ever written, and whether the temp
file still exists when the handler finishes. -/
structure HandlerRun where
  outcome : Outcome
  temp_written : Bool
  temp_exists_after : Bool
  deriving Repr, DecidableEq

/-- `analyze_audio` (`src/main.py` lines 53-72).  `filename` is the upload's
filename (`""` models a missing/empty filename, the falsy case of
`if not file.filename`); `decoded` models what the audio library makes of
the uploaded bytes once written to disk.  The temp file is freshly written
before the `try`, so `analyze_song_as_scores` runs with `path_exists = true`.
Python semantics of `try/finally`: an exception raised inside `finally`
replaces the body's return value or in-flight exception. -/
def analyze_audio (filename : String) (decoded : Option RawFeatures) : HandlerRun :=
  if filename = "" then
    { outcome := Outcome.httpError 400 "No file part in the request"
      temp_written := false
      temp_exists_after := false }
  else
    let body : Outcome :=
      match analyze_song_as_scores true decoded with
      | some data => Outcome.ok data
      | none => Outcome.httpError 500 "Analysis failed"
    match cleanup_block true with
    | (some e, fs2) =>
      { outcome := Outcome.pyError e, temp_written := true, temp_exists_after := fs2 }
    | (none, fs2) =>
      { outcome := body, temp_written := true, temp_exists_after := fs2 }

/-- Response body as delivered to the client: either the JSON rendering of
the six-field record or a plain detail message. -/
inductive RespBody where
  | json (r : AnalysisResult)
  | detail (s : String)
  deriving Repr, DecidableEq

/-- How FastAPI/Starlette turns the handler outcome into an HTTP response:
a normal return becomes 200 with the JSON body, an `HTTPException` keeps its
status and detail, and an uncaught Python exception becomes a generic
500 Internal Server Error. -/
def framework_response (o : Outcome) : Nat × RespBody :=
  match o with
  | Outcome.ok r => (200, RespBody.json r)
  | Outcome.httpError status d => (status, RespBody.detail d)
  | Outcome.pyError _ => (500, RespBody.detail "Internal Server Error")

/-- One full request against `POST /analyze/`: the HTTP status and body the
client receives, whether a temp file was written, and whether it persists. -/
def handle_request (filename : String) (decoded : Option RawFeatures) :
    (Nat × RespBody) × Bool × Bool :=
  let run := analyze_audio filename decoded
  (framework_response run.outcome, run.temp_written, run.temp_exists_after)

/-- The clamp formula exactly as the spec states it:
`min(100, max(0, (raw - offset)/scale * 100))`. -/
def clamp_spec (offset scale raw : ℚ) : ℚ :=
  min 100 (max 0 ((raw - offset) / scale * 100))

/-- The extractor viewed as a pipeline over the uploaded bytes: the audio
library is a function `decode` from bytes to raw statistics (or failure). -/
def run_extraction (decode : List Nat → Option RawFeatures) (path_exists : Bool)
    (bytes : List Nat) : Option AnalysisResult :=
  analyze_song_as_scores path_exists (decode bytes)

/-- Concrete raw statistics of a well-formed audio file, used to evaluate the
model at specific inputs. -/
def demoFeatures : RawFeatures :=
  { tempo := 120, onset_strength := 1/2, spectral_centroid := 2000, rms := 1/10
    harmonic_rms := 2, percussive_rms := 1, spectral_bandwidth := 1500 }

/-- Raw statistics identical to `demoFeatures` except for the mean onset
strength, used to probe the rhythmic-strength mapping at chosen raw values. -/
def onsetFeatures (v : ℚ) : RawFeatures :=
  { demoFeatures with onset_strength := v }

/-- Raw statistics identical to `demoFeatures` except that the percussive
RMS is exactly zero. -/
def zeroPercFeatures : RawFeatures :=
  { demoFeatures with percussive_rms := 0 }

/-- Sanity evaluation: the extractor on `demoFeatures` yields the expected
concrete six-field record. -/
theorem demoFeatures_eval : analyze_song_as_scores true (some demoFeatures) =
    some { tempo_bpm := 120, rhythmic_strength := 75/2, timbre_brightness := 25
           energy_level := 75/2, harmonic_vs_percussive := 100
           timbre_richness := 25 } := by
  norm_num [analyze_song_as_scores, hp_quotient, demoFeatures, min_def, max_def]

/-- Any clamped value `min 100 (max 0 x)` is nonnegative. -/
theorem clamped_nonneg (x : ℚ) : 0 ≤ min 100 (max 0 x) :=
  le_min (by norm_num) (le_max_left 0 x)

/-- Any clamped value `min 100 (max 0 x)` is at most 100. -/
theorem clamped_le_100 (x : ℚ) : min 100 (max 0 x) ≤ 100 :=
  min_le_left _ _

/-- When the harmonic/percussive quotient is at least 1, the dominance
formula saturates at exactly 100. -/
theorem hp_score_sat (q : ℚ) (hq : 1 ≤ q) :
    min 100 (max 0 (q / (q + 1) * 200)) = 100 := by
  have hpos : (0 : ℚ) < q + 1 := by linarith
  have h2 : (100 : ℚ) ≤ q / (q + 1) * 200 := by
    rw [div_mul_eq_mul_div, le_div_iff₀ hpos]
    linarith
  rw [max_eq_right (by linarith : (0 : ℚ) ≤ q / (q + 1) * 200), min_eq_left h2]

/-- When the harmonic/percussive quotient is in `[0, 1)`, the dominance
formula stays strictly below 100. -/
theorem hp_score_below (q : ℚ) (h0 : 0 ≤ q) (h1 : q < 1) :
    min 100 (max 0 (q / (q + 1) * 200)) < 100 := by
  have hpos : (0 : ℚ) < q + 1 := by linarith
  have hlt : q / (q + 1) * 200 < 100 := by
    rw [div_mul_eq_mul_div, div_lt_iff₀ hpos]
    linarith
  have hge : 0 ≤ q / (q + 1) * 200 :=
    mul_nonneg (div_nonneg h0 (le_of_lt hpos)) (by norm_num)
  rw [max_eq_right hge]
  exact lt_of_le_of_lt (min_le_right _ _) hlt

/-- C1: the claim says a request whose file decodes and analyzes successfully
gets a 200 response with the six-field JSON body.  The code disagrees: the
`finally` block deletes the temp file twice, the second `os.remove` raises
`FileNotFoundError` after the first removal, and that exception replaces the
returned result, so the framework answers 500 Internal Server Error.  This
theorem evaluates the model at a concrete successful analysis: extraction
succeeds, yet the response is 500, not 200. -/
theorem success_response_masked_by_double_remove :
    (analyze_song_as_scores true (some demoFeatures)).isSome = true ∧
    handle_request "song.wav" (some demoFeatures) =
      ((500, RespBody.detail "Internal Server Error"), true, false) := by
  exact ⟨rfl, rfl⟩

/-- C2: the claim says extraction failure yields 500 with detail
"Analysis failed" and the temp file removed.  The status and the removal
hold, but the second `os.remove` in `finally` raises `FileNotFoundError`,
replacing the in-flight `HTTPException(500, "Analysis failed")`, so the
client sees the generic 500 Internal Server Error body instead.  Evaluated
at a request whose bytes the library cannot decode. -/
theorem failure_detail_masked_by_double_remove :
    handle_request "corrupt.wav" none =
      ((500, RespBody.detail "Internal Server Error"), true, false) := by
  exact rfl

/-- C3: every request that reaches the temp-file-written state (nonempty
filename) ends with the temp file deleted, whatever the extraction outcome:
the first `os.remove` of the `finally` block always runs and removes it. -/
theorem temp_file_always_removed (filename : String) (decoded : Option RawFeatures)
    (h : filename ≠ "") :
    (analyze_audio filename decoded).temp_written = true ∧
    (analyze_audio filename decoded).temp_exists_after = false := by
  unfold analyze_audio
  rw [if_neg h]
  exact ⟨rfl, rfl⟩

/-- Witness for C3 at a concrete request. -/
theorem temp_file_always_removed_witness :
    (analyze_audio "song.wav" none).temp_written = true ∧
    (analyze_audio "song.wav" none).temp_exists_after = false :=
  temp_file_always_removed "song.wav" none (by decide)

/-- C4: every successful analysis computes the five bounded scores by the
clamp formula `min(100, max(0, (raw - offset)/scale * 100))` with constants
0.2/0.8, 1000/4000, 0.01/0.24 and 1000/2000, the dominance score by
`clamp(quotient/(quotient+1)*200)`, and all five land in `[0, 100]`. -/
theorem scores_follow_clamp_formula (f : RawFeatures) :
    ∃ r, analyze_song_as_scores true (some f) = some r ∧
      r.rhythmic_strength = clamp_spec (1/5) (4/5) f.onset_strength ∧
      r.timbre_brightness = clamp_spec 1000 4000 f.spectral_centroid ∧
      r.energy_level = clamp_spec (1/100) (24/100) f.rms ∧
      r.harmonic_vs_percussive =
        min 100 (max 0 (hp_quotient f / (hp_quotient f + 1) * 200)) ∧
      r.timbre_richness = clamp_spec 1000 2000 f.spectral_bandwidth ∧
      0 ≤ r.rhythmic_strength ∧ r.rhythmic_strength ≤ 100 ∧
      0 ≤ r.timbre_brightness ∧ r.timbre_brightness ≤ 100 ∧
      0 ≤ r.energy_level ∧ r.energy_level ≤ 100 ∧
      0 ≤ r.harmonic_vs_percussive ∧ r.harmonic_vs_percussive ≤ 100 ∧
      0 ≤ r.timbre_richness ∧ r.timbre_richness ≤ 100 := by
  refine ⟨_, rfl, rfl, rfl, rfl, rfl, rfl, ?_, ?_, ?_, ?_, ?_, ?_, ?_, ?_, ?_, ?_⟩
  all_goals first
    | exact clamped_nonneg _
    | exact clamped_le_100 _

/-- C5: the rhythmic-strength mapping sends a raw mean onset strength of
exactly 0.2 to 0, of 1.0 to 100, and clamps rather than extrapolates beyond
the range (raw 1.5 also gives 100, not 162.5). -/
theorem rhythm_boundary_clamped (f g k : RawFeatures)
    (hf : f.onset_strength = 1/5) (hg : g.onset_strength = 1)
    (hk : k.onset_strength = 3/2) :
    (analyze_song_as_scores true (some f)).map AnalysisResult.rhythmic_strength
      = some 0 ∧
    (analyze_song_as_scores true (some g)).map AnalysisResult.rhythmic_strength
      = some 100 ∧
    (analyze_song_as_scores true (some k)).map AnalysisResult.rhythmic_strength
      = some 100 := by
  refine ⟨?_, ?_, ?_⟩ <;>
    simp [analyze_song_as_scores, hf, hg, hk] <;>
    norm_num [min_def, max_def]

/-- Witness for C5 at concrete raw statistics. -/
theorem rhythm_boundary_clamped_witness :
    (analyze_song_as_scores true
        (some (onsetFeatures (1/5)))).map AnalysisResult.rhythmic_strength
      = some 0 ∧
    (analyze_song_as_scores true
        (some (onsetFeatures 1))).map AnalysisResult.rhythmic_strength
      = some 100 ∧
    (analyze_song_as_scores true
        (some (onsetFeatures (3/2)))).map AnalysisResult.rhythmic_strength
      = some 100 :=
  rhythm_boundary_clamped (onsetFeatures (1/5)) (onsetFeatures 1)
    (onsetFeatures (3/2)) rfl rfl rfl

/-- C6: when the percussive RMS is exactly 0, the guarded quotient defaults
to 1 (the division is never taken) and the dominance score is exactly 100. -/
theorem zero_percussive_defaults_to_one (f : RawFeatures)
    (h : f.percussive_rms = 0) :
    hp_quotient f = 1 ∧
    (analyze_song_as_scores true (some f)).map AnalysisResult.harmonic_vs_percussive
      = some 100 := by
  have hq : hp_quotient f = 1 := by simp [hp_quotient, h]
  refine ⟨hq, ?_⟩
  show some (min 100 (max 0 (hp_quotient f / (hp_quotient f + 1) * 200))) = some 100
  rw [hq]
  norm_num [min_def, max_def]

/-- Witness for C6 at concrete raw statistics with zero percussive RMS. -/
theorem zero_percussive_defaults_to_one_witness :
    hp_quotient zeroPercFeatures = 1 ∧
    (analyze_song_as_scores true
        (some zeroPercFeatures)).map AnalysisResult.harmonic_vs_percussive
      = some 100 :=
  zero_percussive_defaults_to_one zeroPercFeatures rfl

/-- C7: a request with a missing or empty filename is answered with status
400 and a descriptive message, no temp file is written, and none persists. -/
theorem empty_filename_rejected (decoded : Option RawFeatures) :
    (handle_request "" decoded).1 = (400, RespBody.detail "No file part in the request") ∧
    (handle_request "" decoded).2.1 = false ∧
    (handle_request "" decoded).2.2 = false :=
  ⟨rfl, rfl, rfl⟩

/-- C8: the extractor yields its single failure signal (`none`) exactly when
the path does not exist or the library raised during decode or feature
computation; in every other case it yields a complete six-field record, never
a partial result or a granular error. -/
theorem extractor_single_failure_signal (path_exists : Bool)
    (decoded : Option RawFeatures) :
    analyze_song_as_scores path_exists decoded = none ↔
      path_exists = false ∨ decoded = none := by
  cases path_exists <;> cases decoded <;>
    simp [analyze_song_as_scores]

/-- C9: the pipeline is deterministic.  The embedding fixes the external
library as a pure `decode` function (the claim's assumption that the
library's primitives are deterministic functions of their inputs), so two
runs on equal uploaded bytes produce equal score records. -/
theorem pipeline_deterministic (decode : List Nat → Option RawFeatures)
    (path_exists : Bool) (b1 b2 : List Nat) (h : b1 = b2) :
    run_extraction decode path_exists b1 = run_extraction decode path_exists b2 := by
  rw [h]

/-- Witness for C9 on two syntactically distinct but equal byte lists. -/
theorem pipeline_deterministic_witness :
    run_extraction (fun _ => some demoFeatures) true [7, 7] =
      run_extraction (fun _ => some demoFeatures) true (List.replicate 2 7) :=
  pipeline_deterministic (fun _ => some demoFeatures) true [7, 7]
    (List.replicate 2 7) (by decide)

/-- C10: whenever the harmonic RMS is at least the percussive RMS (including
the zero-percussive default) the dominance score is exactly 100, and a
dominance score strictly below 100 forces the harmonic RMS to be strictly
smaller than the percussive RMS. -/
theorem dominance_saturates_at_100 (f : RawFeatures) :
    (f.percussive_rms ≤ f.harmonic_rms →
      (analyze_song_as_scores true (some f)).map AnalysisResult.harmonic_vs_percussive
        = some 100) ∧
    (∀ r, analyze_song_as_scores true (some f) = some r →
      r.harmonic_vs_percussive < 100 →
      f.harmonic_rms < f.percussive_rms) := by
  have sat : f.percussive_rms ≤ f.harmonic_rms →
      min 100 (max 0 (hp_quotient f / (hp_quotient f + 1) * 200)) = 100 := by
    intro hle
    have hq : 1 ≤ hp_quotient f := by
      unfold hp_quotient
      split
      · next hp => exact (one_le_div hp).mpr hle
      · exact le_refl 1
    exact hp_score_sat _ hq
  constructor
  · intro hle
    show some (min 100 (max 0 (hp_quotient f / (hp_quotient f + 1) * 200))) = some 100
    rw [sat hle]
  · intro r hr hlt
    have h2 := congrArg (Option.map AnalysisResult.harmonic_vs_percussive) hr
    have h3 : min 100 (max 0 (hp_quotient f / (hp_quotient f + 1) * 200))
        = r.harmonic_vs_percussive := Option.some.inj h2
    by_contra hcon
    push_neg at hcon
    rw [← h3, sat hcon] at hlt
    exact lt_irrefl _ hlt

/-- Witness for C10 at concrete raw statistics with harmonic RMS 2 and
percussive RMS 1. -/
theorem dominance_saturates_at_100_witness :
    (analyze_song_as_scores true
        (some demoFeatures)).map AnalysisResult.harmonic_vs_percussive
      = some 100 :=
  (dominance_saturates_at_100 demoFeatures).1 (by norm_num [demoFeatures])
